import Mathlib

/-!
Shallow embedding of the DAFT device-lifecycle core (configuration
resolution, reservation pool, mode-transition engine, topology discovery)
translated from the Python sources, together with theorems settling the
specification claims.
-/

namespace DAFT

/-! ### Python dict / ConfigParser model

A Python dict with string keys and values is modelled as an association
list; `setKey` is `d[k] = v` (replace in place, else append), `updateMap`
is `d.update(other)` (assign every entry of `other` in order) and `getKey`
is `d[k]` lookup.
-/

abbrev ConfigMap := List (String × String)

/-- Python `d[k] = v`: replace the first binding of `k` in place, else append. -/
def setKey : ConfigMap → String → String → ConfigMap
  | [], k, v => [(k, v)]
  | (k', v') :: rest, k, v =>
      if k' == k then (k', v) :: rest else (k', v') :: setKey rest k v

/-- Python `d.update(other)`: assign each entry of `other` into `d`, in order. -/
def updateMap (m newEntries : ConfigMap) : ConfigMap :=
  newEntries.foldl (fun acc p => setKey acc p.1 p.2) m

/-- Python `d[k]` lookup: value of the first binding of `k`, if any. -/
def getKey : ConfigMap → String → Option String
  | [], _ => none
  | (k', v') :: rest, k => if k' == k then some v' else getKey rest k

/-- The keys of a map, in order. -/
def keysOf (m : ConfigMap) : List String := m.map (fun p => p.1)

/-- Python `str.lower()` on the character data of a string. -/
def strToLower (s : String) : String := ⟨s.data.map Char.toLower⟩

/-- A ConfigParser source: section titles mapped to their item maps. -/
abbrev ConfigSource := List (String × ConfigMap)

/-- Model of `parser.items(sec)` as a total lookup (`none` = NoSectionError). -/
def getSection : ConfigSource → String → Option ConfigMap
  | [], _ => none
  | (t, items) :: rest, sec => if t == sec then some items else getSection rest sec

theorem getKey_setKey_self (m : ConfigMap) (k v : String) :
    getKey (setKey m k v) k = some v := by
  induction m with
  | nil => simp [setKey, getKey]
  | cons p rest ih =>
    obtain ⟨k', v'⟩ := p
    by_cases h : k' = k <;> simp [setKey, getKey, h, ih]

theorem getKey_setKey_ne (m : ConfigMap) (k k' v : String) (h : k' ≠ k) :
    getKey (setKey m k v) k' = getKey m k' := by
  have hkk : ¬ k = k' := fun he => h he.symm
  induction m with
  | nil => simp [setKey, getKey, hkk]
  | cons p rest ih =>
    obtain ⟨k₀, v₀⟩ := p
    by_cases h0 : k₀ = k
    · simp [setKey, getKey, h0, hkk]
    · by_cases h1 : k₀ = k' <;> simp [setKey, getKey, h0, h1, ih, h]

theorem getKey_eq_none_of_not_mem (m : ConfigMap) (k : String)
    (h : k ∉ keysOf m) : getKey m k = none := by
  induction m with
  | nil => simp [getKey]
  | cons p rest ih =>
    obtain ⟨k', v'⟩ := p
    simp [keysOf] at h
    have h1 : ¬ k' = k := fun he => h.1 he.symm
    have h2 : k ∉ keysOf rest := by
      simp [keysOf]
      exact h.2
    simp [getKey, h1, ih h2]

theorem getKey_updateMap_of_not_mem (n : ConfigMap) :
    ∀ (m : ConfigMap) (k : String), k ∉ keysOf n →
      getKey (updateMap m n) k = getKey m k := by
  induction n with
  | nil => intro m k _; rfl
  | cons p rest ih =>
    intro m k hk
    simp [keysOf] at hk
    have hstep : updateMap m (p :: rest) = updateMap (setKey m p.1 p.2) rest := rfl
    rw [hstep, ih _ k (by simpa [keysOf] using hk.2)]
    exact getKey_setKey_ne m p.1 k p.2 hk.1

theorem getKey_updateMap (n : ConfigMap) :
    ∀ (m : ConfigMap) (k : String), (keysOf n).Nodup →
      getKey (updateMap m n) k =
        (match getKey n k with
         | some v => some v
         | none => getKey m k) := by
  induction n with
  | nil => intro m k _; simp [updateMap, getKey]
  | cons p rest ih =>
    intro m k hnd
    obtain ⟨k₀, v₀⟩ := p
    simp [keysOf] at hnd
    have hstep : updateMap m ((k₀, v₀) :: rest) = updateMap (setKey m k₀ v₀) rest := rfl
    by_cases hk : k₀ = k
    · subst hk
      have hrest : getKey rest k₀ = none :=
        getKey_eq_none_of_not_mem rest k₀ (by
          simp [keysOf]
          exact hnd.1)
      rw [hstep, ih (setKey m k₀ v₀) k₀ (by simpa [keysOf] using hnd.2)]
      simp [hrest, getKey_setKey_self, getKey]
    · rw [hstep, ih (setKey m k₀ v₀) k (by simpa [keysOf] using hnd.2)]
      have hne := getKey_setKey_ne m k₀ k v₀ (fun he => hk he.symm)
      simp [getKey, hk, hne]

/-! ### Configuration resolution (`DevicesManager._construct_configs`)

The three ConfigParser sources (platform, catalog, topology/unit) are
merged per unit section.  Failures are kept apart by kind: a missing dict
key raises Python `KeyError`, a missing section raises ConfigParser
`NoSectionError`, and only the zero-configurations check raises
`AFTConfigurationError`.
-/

/-- The ways `_construct_configs` can fail, by Python exception class. -/
inductive ConfigError where
  | keyError (key : String)
  | noSection (sec : String)
  | aftConfigurationError (msg : String)
deriving Repr, DecidableEq

deriving instance DecidableEq for Except

/-- Is the error an `AFTConfigurationError` (vs. KeyError/NoSectionError)? -/
def isAFTConfigurationError : ConfigError → Bool
  | .aftConfigurationError _ => true
  | _ => false

/-- One resolved device descriptor (`device_param` in the source). -/
structure DeviceParam where
  name : String
  model : String
  settings : ConfigMap
deriving Repr, DecidableEq

/-- The message of the zero-configurations `AFTConfigurationError`. -/
def zeroConfigsMsg : String :=
  "Zero device configurations built - is this really correct? " ++
  "Check that paths for topology, catalog and platform files " ++
  "are correct and that the files have some settings inside"

/-- The loop body of `_construct_configs` for one topology section:
look up the model in the catalog, its platform in the platform source,
merge platform then catalog then unit entry, then overwrite `name` and
`serial_log_name`. -/
def buildOneConfig (platformCfg catalogCfg : ConfigSource)
    (serialLogName : String) (deviceTitle : String) (deviceEntry : ConfigMap) :
    Except ConfigError DeviceParam :=
  match getKey deviceEntry "model" with
  | none => .error (.keyError "model")
  | some model =>
    match getSection catalogCfg model with
    | none => .error (.noSection model)
    | some catalogEntry =>
      match getKey catalogEntry "platform" with
      | none => .error (.keyError "platform")
      | some platform =>
        match getSection platformCfg platform with
        | none => .error (.noSection platform)
        | some platformEntry =>
          let s0 := updateMap (updateMap (updateMap [] platformEntry) catalogEntry) deviceEntry
          let s1 := setKey s0 "name" (strToLower deviceTitle)
          let s2 := setKey s1 "serial_log_name" serialLogName
          .ok { name := strToLower deviceTitle, model := strToLower model, settings := s2 }

/-- The `for device_title in topology_config.sections()` loop. -/
def constructConfigsLoop (platformCfg catalogCfg : ConfigSource)
    (serialLogName : String) : ConfigSource → Except ConfigError (List DeviceParam)
  | [] => .ok []
  | (title, entry) :: rest =>
    match buildOneConfig platformCfg catalogCfg serialLogName title entry with
    | .error e => .error e
    | .ok d =>
      match constructConfigsLoop platformCfg catalogCfg serialLogName rest with
      | .error e => .error e
      | .ok ds => .ok (d :: ds)

/-- Embedding of `DevicesManager._construct_configs`: run the loop over all topology
sections, then reject an empty result with an `AFTConfigurationError`. -/
def constructConfigs (platformCfg catalogCfg topologyCfg : ConfigSource)
    (serialLogName : String) : Except ConfigError (List DeviceParam) :=
  match constructConfigsLoop platformCfg catalogCfg serialLogName topologyCfg with
  | .error e => .error e
  | .ok configs =>
    if configs.length = 0 then .error (.aftConfigurationError zeroConfigsMsg)
    else .ok configs

theorem constructConfigsLoop_mem (platformCfg catalogCfg : ConfigSource)
    (serialLogName : String) :
    ∀ (topologyCfg : ConfigSource) (ds : List DeviceParam),
      constructConfigsLoop platformCfg catalogCfg serialLogName topologyCfg = .ok ds →
      ∀ d ∈ ds, ∃ t e, (t, e) ∈ topologyCfg ∧
        buildOneConfig platformCfg catalogCfg serialLogName t e = .ok d := by
  intro topologyCfg
  induction topologyCfg with
  | nil =>
    intro ds h d hd
    simp [constructConfigsLoop] at h
    subst h
    simp at hd
  | cons p rest ih =>
    intro ds h d hd
    obtain ⟨t, e⟩ := p
    simp only [constructConfigsLoop] at h
    cases hb : buildOneConfig platformCfg catalogCfg serialLogName t e with
    | error err => rw [hb] at h; exact absurd h (by simp)
    | ok d0 =>
      rw [hb] at h
      cases hr : constructConfigsLoop platformCfg catalogCfg serialLogName rest with
      | error err => rw [hr] at h; exact absurd h (by simp)
      | ok ds0 =>
        rw [hr] at h
        simp at h
        subst h
        rcases List.mem_cons.mp hd with hd | hd
        · exact ⟨t, e, by simp, by rw [hd]; exact hb⟩
        · obtain ⟨t', e', hmem, hb'⟩ := ih ds0 hr d hd
          exact ⟨t', e', by simp [hmem], hb'⟩

theorem constructConfigsLoop_length (platformCfg catalogCfg : ConfigSource)
    (serialLogName : String) :
    ∀ (topologyCfg : ConfigSource) (ds : List DeviceParam),
      constructConfigsLoop platformCfg catalogCfg serialLogName topologyCfg = .ok ds →
      ds.length = topologyCfg.length := by
  intro topologyCfg
  induction topologyCfg with
  | nil =>
    intro ds h
    simp [constructConfigsLoop] at h
    simp [← h]
  | cons p rest ih =>
    intro ds h
    obtain ⟨t, e⟩ := p
    simp only [constructConfigsLoop] at h
    cases hb : buildOneConfig platformCfg catalogCfg serialLogName t e with
    | error err => rw [hb] at h; exact absurd h (by simp)
    | ok d0 =>
      rw [hb] at h
      cases hr : constructConfigsLoop platformCfg catalogCfg serialLogName rest with
      | error err => rw [hr] at h; exact absurd h (by simp)
      | ok ds0 =>
        rw [hr] at h
        simp at h
        subst h
        simp [ih ds0 hr]

theorem constructConfigsLoop_total (platformCfg catalogCfg : ConfigSource)
    (serialLogName : String) :
    ∀ (topologyCfg : ConfigSource),
      (∀ te ∈ topologyCfg, ∃ d,
        buildOneConfig platformCfg catalogCfg serialLogName te.1 te.2 = .ok d) →
      ∃ ds, constructConfigsLoop platformCfg catalogCfg serialLogName topologyCfg = .ok ds := by
  intro topologyCfg
  induction topologyCfg with
  | nil => intro _; exact ⟨[], rfl⟩
  | cons p rest ih =>
    intro h
    obtain ⟨t, e⟩ := p
    obtain ⟨d, hd⟩ := h (t, e) (by simp)
    obtain ⟨ds, hds⟩ := ih (fun te hte => h te (by simp [hte]))
    exact ⟨d :: ds, by simp only [constructConfigsLoop]; rw [hd, hds]⟩

theorem buildOneConfig_ok_elim (platformCfg catalogCfg : ConfigSource)
    (serialLogName title : String) (deviceEntry : ConfigMap) (d : DeviceParam)
    (hb : buildOneConfig platformCfg catalogCfg serialLogName title deviceEntry = .ok d) :
    ∃ model catalogEntry platform platformEntry,
      getKey deviceEntry "model" = some model ∧
      getSection catalogCfg model = some catalogEntry ∧
      getKey catalogEntry "platform" = some platform ∧
      getSection platformCfg platform = some platformEntry ∧
      d = { name := strToLower title, model := strToLower model,
            settings := setKey (setKey
              (updateMap (updateMap (updateMap [] platformEntry) catalogEntry) deviceEntry)
              "name" (strToLower title)) "serial_log_name" serialLogName } := by
  unfold buildOneConfig at hb
  cases hm : getKey deviceEntry "model" with
  | none => simp only [hm] at hb; exact absurd hb (by simp)
  | some model =>
    simp only [hm] at hb
    cases hc : getSection catalogCfg model with
    | none => simp only [hc] at hb; exact absurd hb (by simp)
    | some catalogEntry =>
      simp only [hc] at hb
      cases hp : getKey catalogEntry "platform" with
      | none => simp only [hp] at hb; exact absurd hb (by simp)
      | some platform =>
        simp only [hp] at hb
        cases hpe : getSection platformCfg platform with
        | none => simp only [hpe] at hb; exact absurd hb (by simp)
        | some platformEntry =>
          simp only [hpe] at hb
          simp at hb
          exact ⟨model, catalogEntry, platform, platformEntry, rfl, hc, hp, hpe, hb.symm⟩

theorem buildOneConfig_error_kind (platformCfg catalogCfg : ConfigSource)
    (serialLogName title : String) (deviceEntry : ConfigMap) (e : ConfigError)
    (hb : buildOneConfig platformCfg catalogCfg serialLogName title deviceEntry = .error e) :
    isAFTConfigurationError e = false := by
  unfold buildOneConfig at hb
  cases hm : getKey deviceEntry "model" with
  | none =>
    simp only [hm] at hb; simp at hb; rw [← hb]; rfl
  | some model =>
    simp only [hm] at hb
    cases hc : getSection catalogCfg model with
    | none => simp only [hc] at hb; simp at hb; rw [← hb]; rfl
    | some catalogEntry =>
      simp only [hc] at hb
      cases hp : getKey catalogEntry "platform" with
      | none => simp only [hp] at hb; simp at hb; rw [← hb]; rfl
      | some platform =>
        simp only [hp] at hb
        cases hpe : getSection platformCfg platform with
        | none => simp only [hpe] at hb; simp at hb; rw [← hb]; rfl
        | some platformEntry => simp only [hpe] at hb; exact absurd hb (by simp)

theorem constructConfigsLoop_error_kind (platformCfg catalogCfg : ConfigSource)
    (serialLogName : String) :
    ∀ (topologyCfg : ConfigSource) (e : ConfigError),
      constructConfigsLoop platformCfg catalogCfg serialLogName topologyCfg = .error e →
      isAFTConfigurationError e = false := by
  intro topologyCfg
  induction topologyCfg with
  | nil => intro e h; exact absurd h (by simp [constructConfigsLoop])
  | cons p rest ih =>
    intro e h
    obtain ⟨t, en⟩ := p
    simp only [constructConfigsLoop] at h
    cases hb : buildOneConfig platformCfg catalogCfg serialLogName t en with
    | error e0 =>
      rw [hb] at h
      simp at h
      rw [h] at hb
      exact buildOneConfig_error_kind _ _ _ _ _ _ hb
    | ok d0 =>
      rw [hb] at h
      cases hr : constructConfigsLoop platformCfg catalogCfg serialLogName rest with
      | error e1 =>
        rw [hr] at h
        simp at h
        rw [h] at hr
        exact ih e hr
      | ok ds0 => rw [hr] at h; exact absurd h (by simp)

/-- Extract a named setting of the first resolved descriptor, if any. -/
def firstConfigSetting (r : Except ConfigError (List DeviceParam)) (k : String) :
    Option String :=
  match r with
  | .ok (d :: _) => getKey d.settings k
  | _ => none

/-- C3 counterexample: the three layers all define the key `"name"`
(platform `1`, catalog `2`, unit `3`), yet the resolved settings hold the
lower-cased section title `"unita"`, not the unit layer's `"3"` — so the
stated last-write-wins precedence does not cover every key. -/
theorem claim_C3_counterexample :
    firstConfigSetting (constructConfigs
      [("plat1", [("name", "1")])]
      [("mod1", [("platform", "plat1"), ("name", "2")])]
      [("UnitA", [("model", "mod1"), ("name", "3")])]
      "serial.log") "name" = some "unita" ∧
    firstConfigSetting (constructConfigs
      [("plat1", [("name", "1")])]
      [("mod1", [("platform", "plat1"), ("name", "2")])]
      [("UnitA", [("model", "mod1"), ("name", "3")])]
      "serial.log") "name" ≠ some "3" := by
  exact ⟨by decide, by decide⟩

/-- C3 (amended): for every key other than `"name"` and
`"serial_log_name"`, the per-unit resolution merges the three layers with
last-write-wins precedence unit > catalog > platform; the two excluded
keys are overwritten after the merge. -/
theorem claim_C3_amended
    (platformCfg catalogCfg : ConfigSource) (serialLogName title : String)
    (deviceEntry catalogEntry platformEntry : ConfigMap)
    (model platform : String) (d : DeviceParam) (k : String)
    (hm : getKey deviceEntry "model" = some model)
    (hc : getSection catalogCfg model = some catalogEntry)
    (hp : getKey catalogEntry "platform" = some platform)
    (hpe : getSection platformCfg platform = some platformEntry)
    (hnp : (keysOf platformEntry).Nodup)
    (hnc : (keysOf catalogEntry).Nodup)
    (hnd : (keysOf deviceEntry).Nodup)
    (hb : buildOneConfig platformCfg catalogCfg serialLogName title deviceEntry = .ok d)
    (hkn : k ≠ "name") (hks : k ≠ "serial_log_name") :
    getKey d.settings k =
      (match getKey deviceEntry k with
       | some v => some v
       | none =>
         match getKey catalogEntry k with
         | some v => some v
         | none => getKey platformEntry k) := by
  obtain ⟨model', catalogEntry', platform', platformEntry', hm', hc', hp', hpe', hd⟩ :=
    buildOneConfig_ok_elim _ _ _ _ _ _ hb
  rw [hm] at hm'
  injection hm' with hm'
  subst hm'
  rw [hc] at hc'
  injection hc' with hc'
  subst hc'
  rw [hp] at hp'
  injection hp' with hp'
  subst hp'
  rw [hpe] at hpe'
  injection hpe' with hpe'
  subst hpe'
  subst hd
  show getKey (setKey (setKey _ "name" _) "serial_log_name" _) k = _
  rw [getKey_setKey_ne _ _ _ _ hks, getKey_setKey_ne _ _ _ _ hkn,
    getKey_updateMap deviceEntry _ k hnd]
  cases hdev : getKey deviceEntry k with
  | some v => simp
  | none =>
    simp only
    rw [getKey_updateMap catalogEntry _ k hnc]
    cases hcat : getKey catalogEntry k with
    | some v => simp
    | none =>
      simp only
      rw [getKey_updateMap platformEntry _ k hnp]
      cases hplat : getKey platformEntry k <;> simp [getKey]

/-- C3 witness: the spec's own example — platform `x=1`, catalog `x=2`,
unit `x=3` — resolves to `x = 3` via the amended precedence theorem. -/
theorem claim_C3_witness :
    getKey (DeviceParam.mk "unita" "mod"
      [("x", "3"), ("platform", "plat"), ("model", "mod"),
       ("name", "unita"), ("serial_log_name", "serial.log")]).settings "x" = some "3" := by
  have h := claim_C3_amended [("plat", [("x", "1")])]
    [("mod", [("platform", "plat"), ("x", "2")])] "serial.log" "UnitA"
    [("model", "mod"), ("x", "3")] [("platform", "plat"), ("x", "2")] [("x", "1")]
    "mod" "plat"
    (DeviceParam.mk "unita" "mod"
      [("x", "3"), ("platform", "plat"), ("model", "mod"),
       ("name", "unita"), ("serial_log_name", "serial.log")]) "x"
    rfl rfl rfl rfl (by decide) (by decide) (by decide) (by decide)
    (by decide) (by decide)
  exact h.trans (by decide)


/-- C9: every descriptor produced by configuration resolution has
`settings["name"]` equal to the lower-cased unit section title and a
`settings["serial_log_name"]` entry equal to the configured serial log
name, both written after the three-layer merge, regardless of any values
the layers give those keys. -/
theorem claim_C9_name_serial_log_overwritten
    (platformCfg catalogCfg topologyCfg : ConfigSource) (serialLogName : String)
    (ds : List DeviceParam)
    (h : constructConfigs platformCfg catalogCfg topologyCfg serialLogName = .ok ds) :
    ∀ d ∈ ds, ∃ t e, (t, e) ∈ topologyCfg ∧ d.name = strToLower t ∧
      getKey d.settings "name" = some (strToLower t) ∧
      getKey d.settings "serial_log_name" = some serialLogName := by
  intro d hd
  unfold constructConfigs at h
  cases hl : constructConfigsLoop platformCfg catalogCfg serialLogName topologyCfg with
  | error e => simp only [hl] at h; exact absurd h (by simp)
  | ok configs =>
    simp only [hl] at h
    by_cases hlen : configs.length = 0
    · rw [if_pos hlen] at h; exact absurd h (by simp)
    · rw [if_neg hlen] at h
      simp at h
      subst h
      obtain ⟨t, e, hmem, hb⟩ :=
        constructConfigsLoop_mem platformCfg catalogCfg serialLogName topologyCfg _ hl d hd
      obtain ⟨model, catalogEntry, platform, platformEntry, _, _, _, _, hdval⟩ :=
        buildOneConfig_ok_elim _ _ _ _ _ _ hb
      refine ⟨t, e, hmem, ?_, ?_, ?_⟩
      · rw [hdval]
      · rw [hdval]
        show getKey (setKey (setKey _ "name" _) "serial_log_name" _) "name" = _
        rw [getKey_setKey_ne _ _ _ _ (by decide : ("name" : String) ≠ "serial_log_name"),
          getKey_setKey_self]
      · rw [hdval]
        show getKey (setKey _ "serial_log_name" _) "serial_log_name" = _
        rw [getKey_setKey_self]

/-- C9 witness: with all three layers defining bogus `name` and
`serial_log_name` values, the resolved descriptor still carries the
lower-cased title and the configured serial log name. -/
theorem claim_C9_witness :
    ∃ t e, (t, e) ∈ ([("UnitA", [("model", "m1"), ("name", "un")])] : ConfigSource) ∧
      (DeviceParam.mk "unita" "m1"
        [("serial_log_name", "serial.log"), ("name", "unita"),
         ("platform", "p1"), ("model", "m1")]).name = strToLower t ∧
      getKey (DeviceParam.mk "unita" "m1"
        [("serial_log_name", "serial.log"), ("name", "unita"),
         ("platform", "p1"), ("model", "m1")]).settings "name" = some (strToLower t) ∧
      getKey (DeviceParam.mk "unita" "m1"
        [("serial_log_name", "serial.log"), ("name", "unita"),
         ("platform", "p1"), ("model", "m1")]).settings "serial_log_name" =
        some "serial.log" := by
  have h := claim_C9_name_serial_log_overwritten
    [("p1", [("serial_log_name", "bogus"), ("name", "pn")])]
    [("m1", [("platform", "p1"), ("name", "cn")])]
    [("UnitA", [("model", "m1"), ("name", "un")])]
    "serial.log"
    [DeviceParam.mk "unita" "m1"
      [("serial_log_name", "serial.log"), ("name", "unita"),
       ("platform", "p1"), ("model", "m1")]]
    (by decide)
  exact h _ (by decide)

/-- C4 counterexample: a unit whose declared model `m1` is absent from
the catalog makes resolution fail with ConfigParser's `NoSectionError`,
not with `AFTConfigurationError` — so "fails with a configuration error"
does not hold for the missing-model case in the claimed (AFT error class)
sense. -/
theorem claim_C4_counterexample :
    constructConfigs [] [] [("U1", [("model", "m1")])] "serial.log" =
      .error (.noSection "m1") ∧
    isAFTConfigurationError (.noSection "m1") = false := by
  constructor
  · show (match constructConfigsLoop [] [] "serial.log" [("U1", [("model", "m1")])] with
      | .error e => Except.error e
      | .ok configs =>
        if configs.length = 0 then .error (.aftConfigurationError zeroConfigsMsg)
        else .ok configs) = .error (.noSection "m1")
    rfl
  · rfl

/-- C4 (amended): `AFTConfigurationError` is raised exactly when the unit
list resolves but is empty; a model absent from the catalog or a platform
absent from the platform source surfaces as a `NoSectionError` of the
config parser; when every unit entry resolves and at least one exists,
resolution returns one descriptor per unit entry. -/
theorem claim_C4_amended
    (platformCfg catalogCfg topologyCfg : ConfigSource) (serialLogName : String) :
    (topologyCfg = [] →
      constructConfigs platformCfg catalogCfg topologyCfg serialLogName =
        .error (.aftConfigurationError zeroConfigsMsg)) ∧
    (∀ msg, constructConfigs platformCfg catalogCfg topologyCfg serialLogName =
        .error (.aftConfigurationError msg) →
      topologyCfg = [] ∧ msg = zeroConfigsMsg) ∧
    ((∀ te ∈ topologyCfg, ∃ d,
        buildOneConfig platformCfg catalogCfg serialLogName te.1 te.2 = .ok d) →
      topologyCfg ≠ [] →
      ∃ ds, constructConfigs platformCfg catalogCfg topologyCfg serialLogName = .ok ds ∧
        ds.length = topologyCfg.length) ∧
    (∀ t e rest model, topologyCfg = (t, e) :: rest →
      getKey e "model" = some model → getSection catalogCfg model = none →
      constructConfigs platformCfg catalogCfg topologyCfg serialLogName =
        .error (.noSection model)) ∧
    (∀ t e rest model catalogEntry platform, topologyCfg = (t, e) :: rest →
      getKey e "model" = some model → getSection catalogCfg model = some catalogEntry →
      getKey catalogEntry "platform" = some platform →
      getSection platformCfg platform = none →
      constructConfigs platformCfg catalogCfg topologyCfg serialLogName =
        .error (.noSection platform)) := by
  refine ⟨?_, ?_, ?_, ?_, ?_⟩
  · intro h
    subst h
    rfl
  · intro msg hmsg
    unfold constructConfigs at hmsg
    cases hl : constructConfigsLoop platformCfg catalogCfg serialLogName topologyCfg with
    | error e =>
      simp only [hl] at hmsg
      simp at hmsg
      have hk := constructConfigsLoop_error_kind platformCfg catalogCfg serialLogName
        topologyCfg e hl
      rw [hmsg] at hk
      exact absurd hk (by simp [isAFTConfigurationError])
    | ok configs =>
      simp only [hl] at hmsg
      by_cases hlen : configs.length = 0
      · rw [if_pos hlen] at hmsg
        simp at hmsg
        have hlength := constructConfigsLoop_length platformCfg catalogCfg serialLogName
          topologyCfg configs hl
        refine ⟨?_, hmsg.symm⟩
        rw [hlen] at hlength
        exact List.eq_nil_of_length_eq_zero hlength.symm
      · rw [if_neg hlen] at hmsg
        exact absurd hmsg (by simp)
  · intro hall hne
    obtain ⟨ds, hds⟩ := constructConfigsLoop_total platformCfg catalogCfg serialLogName
      topologyCfg hall
    have hlength := constructConfigsLoop_length platformCfg catalogCfg serialLogName
      topologyCfg ds hds
    refine ⟨ds, ?_, hlength⟩
    have hzero : ds.length ≠ 0 := by
      rw [hlength]
      exact fun h0 => hne (List.eq_nil_of_length_eq_zero h0)
    simp only [constructConfigs, hds]
    rw [if_neg hzero]
  · intro t e rest model htopo hm hc
    subst htopo
    unfold constructConfigs
    have : constructConfigsLoop platformCfg catalogCfg serialLogName ((t, e) :: rest) =
        .error (.noSection model) := by
      simp only [constructConfigsLoop]
      have hb : buildOneConfig platformCfg catalogCfg serialLogName t e =
          .error (.noSection model) := by
        simp only [buildOneConfig, hm, hc]
      rw [hb]
    simp only [constructConfigs, this]
  · intro t e rest model catalogEntry platform htopo hm hc hp hpe
    subst htopo
    unfold constructConfigs
    have : constructConfigsLoop platformCfg catalogCfg serialLogName ((t, e) :: rest) =
        .error (.noSection platform) := by
      simp only [constructConfigsLoop]
      have hb : buildOneConfig platformCfg catalogCfg serialLogName t e =
          .error (.noSection platform) := by
        simp only [buildOneConfig, hm, hc, hp, hpe]
      rw [hb]
    simp only [constructConfigs, this]

/-- C4 witness: an empty topology source yields the zero-configurations
`AFTConfigurationError`, and a fully-resolving one-unit topology yields
exactly one descriptor. -/
theorem claim_C4_witness :
    constructConfigs [("p1", [("k", "v")])] [("m1", [("platform", "p1")])] []
      "serial.log" = .error (.aftConfigurationError zeroConfigsMsg) ∧
    ∃ ds, constructConfigs [("p1", [("k", "v")])] [("m1", [("platform", "p1")])]
      [("U1", [("model", "m1")])] "serial.log" = .ok ds ∧ ds.length = 1 := by
  constructor
  · exact (claim_C4_amended [("p1", [("k", "v")])] [("m1", [("platform", "p1")])] []
      "serial.log").1 rfl
  · exact (claim_C4_amended [("p1", [("k", "v")])] [("m1", [("platform", "p1")])]
      [("U1", [("model", "m1")])] "serial.log").2.2.1
      (by
        intro te hte
        simp at hte
        subst hte
        exact ⟨_, rfl⟩)
      (by simp)

/-! ### Character-level string helpers (kernel-reducible) -/

/-- Does the second character list occur at the start of the first? -/
def startsWithSeq : List Char → List Char → Bool
  | _, [] => true
  | [], _ :: _ => false
  | a :: as, b :: bs => a == b && startsWithSeq as bs

/-- Does the second character list occur contiguously in the first? -/
def containsSeq : List Char → List Char → Bool
  | [], pat => pat.isEmpty
  | a :: as, pat => startsWithSeq (a :: as) pat || containsSeq as pat

/-- Substring test on strings. -/
def strContainsSub (s pat : String) : Bool := containsSeq s.data pat.data

/-- Python `s.startswith(pre)`. -/
def strStartsWith (s pre : String) : Bool := startsWithSeq s.data pre.data

/-! ### Mode transition engine (`PCDevice._enter_mode`)

One attempt = `_power_cycle()`, PEM keystroke playback,
`_wait_for_responsive_ip()` and, when an ip appeared, `_verify_mode`.
`waitIp k` and `verify k name` are the environment's answers during
attempt `k`.
-/

/-- The `{name, sequence}` mode dictionary passed to `_enter_mode`. -/
structure ModeSpec where
  name : String
  sequence : String
deriving Repr, DecidableEq

/-- Observable outcome of one `_enter_mode` call: number of complete
attempts, number of power cycles performed, the critical log line emitted
on exhaustion, and the final result (`.error` = raised `AFTDeviceError`
message, `.ok` = normal return). -/
structure EnterModeResult where
  attempts : Nat
  powerCycles : Nat
  criticalLog : Option String
  result : Except String Unit
deriving Repr, DecidableEq

/-- The `for _ in range(self._RETRY_ATTEMPTS)` loop of `_enter_mode`:
`done` attempts have finished, `n` remain.  Each iteration starts with a
power cycle; success returns immediately; exhaustion logs a critical line
naming the device id and raises an `AFTDeviceError` naming the mode. -/
def enterModeLoop (devId : String) (mode : ModeSpec)
    (waitIp : Nat → Option String) (verify : Nat → String → Bool) :
    Nat → Nat → EnterModeResult
  | done, 0 =>
    { attempts := done, powerCycles := done,
      criticalLog := some ("Unable to get device " ++ devId ++ " in mode " ++ mode.name),
      result := .error ("Could not set the device in mode " ++ mode.name) }
  | done, n + 1 =>
    match waitIp done with
    | some _ip =>
      if verify done mode.name then
        { attempts := done + 1, powerCycles := done + 1, criticalLog := none,
          result := .ok () }
      else enterModeLoop devId mode waitIp verify (done + 1) n
    | none => enterModeLoop devId mode waitIp verify (done + 1) n

/-- The retry bound `PCDevice._RETRY_ATTEMPTS`. -/
def RETRY_ATTEMPTS : Nat := 8

/-- Embedding of `PCDevice._enter_mode(mode)`. -/
def enterMode (devId : String) (mode : ModeSpec)
    (waitIp : Nat → Option String) (verify : Nat → String → Bool) : EnterModeResult :=
  enterModeLoop devId mode waitIp verify 0 RETRY_ATTEMPTS

theorem enterModeLoop_all_fail (devId : String) (mode : ModeSpec)
    (waitIp : Nat → Option String) (verify : Nat → String → Bool)
    (h : ∀ k, waitIp k = none ∨ verify k mode.name = false) :
    ∀ (n done : Nat), enterModeLoop devId mode waitIp verify done n =
      { attempts := done + n, powerCycles := done + n,
        criticalLog := some ("Unable to get device " ++ devId ++ " in mode " ++ mode.name),
        result := .error ("Could not set the device in mode " ++ mode.name) } := by
  intro n
  induction n with
  | zero => intro done; simp [enterModeLoop]
  | succ n ih =>
    intro done
    have hstep : enterModeLoop devId mode waitIp verify done (n + 1) =
        enterModeLoop devId mode waitIp verify (done + 1) n := by
      rcases h done with hip | hv
      · simp [enterModeLoop, hip]
      · cases hw : waitIp done with
        | none => simp [enterModeLoop, hw]
        | some ip => simp [enterModeLoop, hw, hv]
    rw [hstep, ih (done + 1)]
    have he : done + 1 + n = done + (n + 1) := by omega
    rw [he]

/-- C1 counterexample: with a device whose mode verification always
fails, the raised `AFTDeviceError` message names the target mode but does
not name the device (id `dev42` is absent from the message) — contrary to
the claim that the error names both the device and the mode. -/
theorem claim_C1_counterexample :
    (enterMode "dev42" ⟨"testmode", "seq"⟩ (fun _ => some "ip")
      (fun _ _ => false)).result =
      .error "Could not set the device in mode testmode" ∧
    strContainsSub "Could not set the device in mode testmode" "testmode" = true ∧
    strContainsSub "Could not set the device in mode testmode" "dev42" = false := by
  exact ⟨by decide, by decide, by decide⟩

/-- C1 (amended): when verification never succeeds or no responsive
identity ever appears, `_enter_mode` performs exactly `_RETRY_ATTEMPTS`
(=8) complete attempts, each starting with a full power cycle, and then
raises an `AFTDeviceError` naming the target mode; the device id is named
in the critical log line, not in the raised error; it never returns
silently. -/
theorem claim_C1_amended (devId : String) (mode : ModeSpec)
    (waitIp : Nat → Option String) (verify : Nat → String → Bool)
    (h : ∀ k, waitIp k = none ∨ verify k mode.name = false) :
    enterMode devId mode waitIp verify =
      { attempts := RETRY_ATTEMPTS, powerCycles := RETRY_ATTEMPTS,
        criticalLog := some ("Unable to get device " ++ devId ++ " in mode " ++ mode.name),
        result := .error ("Could not set the device in mode " ++ mode.name) } := by
  unfold enterMode
  rw [enterModeLoop_all_fail devId mode waitIp verify h RETRY_ATTEMPTS 0]
  simp

/-- C1 witness: the amended theorem applied to a concrete device whose
`_verify_mode` always returns false. -/
theorem claim_C1_witness :
    enterMode "dev42" ⟨"testmode", "seq"⟩ (fun _ => some "ip") (fun _ _ => false) =
      { attempts := 8, powerCycles := 8,
        criticalLog := some "Unable to get device dev42 in mode testmode",
        result := .error "Could not set the device in mode testmode" } := by
  have h := claim_C1_amended "dev42" ⟨"testmode", "seq"⟩ (fun _ => some "ip")
    (fun _ _ => false) (fun _ => Or.inr rfl)
  exact h.trans (by decide)

/-! ### Reservation pool (`DevicesManager`)

`lockAttempt k id` models the outcome of the non-blocking
`fcntl.flock` acquisition for device identity `id` during poll round `k`
(rounds are 10 seconds apart: round `k` happens at elapsed time `10*k`).
-/

/-- A device as seen by `_do_reserve` (name and `dev_id`). -/
structure BDevice where
  name : String
  dev_id : String
deriving Repr, DecidableEq

/-- One line of the blacklist file: `id name reason...`. -/
structure BlacklistEntry where
  id : String
  name : String
  reason : String
deriving Repr, DecidableEq

/-- Does some blacklist entry carry this device's id? -/
def isBlacklisted (bl : List BlacklistEntry) (d : BDevice) : Bool :=
  bl.any (fun b => b.id == d.dev_id)

/-- Embedding of `DevicesManager._remove_blacklisted_devices`. -/
def removeBlacklistedDevices (bl : List BlacklistEntry) (devices : List BDevice) :
    List BDevice :=
  devices.filter (fun d => !isBlacklisted bl d)

/-- Outcome of one non-blocking `flock` attempt. -/
inductive LockResult where
  | acquired
  | busy
  | failure
deriving Repr, DecidableEq

/-- Outcome of one pass of the `for device in devices` loop. -/
inductive PassResult where
  | got (d : BDevice)
  | exited
  | allBusy
deriving Repr, DecidableEq

/-- One pass over the candidates: first successful lock wins; a
non-busy lock failure calls `sys.exit(-1)`. -/
def tryLockPass (lockAttempt : Nat → String → LockResult) (k : Nat) :
    List BDevice → PassResult
  | [] => .allBusy
  | d :: ds =>
    match lockAttempt k d.dev_id with
    | .acquired => .got d
    | .busy => tryLockPass lockAttempt k ds
    | .failure => .exited

/-- Result of `_do_reserve`: a reserved device (with the poll round it
was locked in), a raised error, or a process exit. -/
inductive ReserveOutcome where
  | reserved (d : BDevice) (k : Nat)
  | configError (msg : String)
  | timeoutError (msg : String)
  | exited
deriving Repr, DecidableEq

/-- The `while time.time() - start < timeout` polling loop of
`_do_reserve`; time advances by 10 seconds per `time.sleep(10)`. -/
def doReserveLoop (lockAttempt : Nat → String → LockResult)
    (devices : List BDevice) (name : String) (timeout elapsed : Nat) :
    ReserveOutcome :=
  if elapsed < timeout then
    match tryLockPass lockAttempt (elapsed / 10) devices with
    | .got d => .reserved d (elapsed / 10)
    | .exited => .exited
    | .allBusy => doReserveLoop lockAttempt devices name timeout (elapsed + 10)
  else
    .timeoutError ("Could not reserve " ++ name ++ " in " ++ toString timeout ++
      " seconds.")
termination_by timeout - elapsed
decreasing_by omega

/-- Embedding of `DevicesManager._do_reserve(devices, name, timeout)`. -/
def doReserve (bl : List BlacklistEntry) (lockAttempt : Nat → String → LockResult)
    (devices : List BDevice) (name : String) (timeout : Nat) : ReserveOutcome :=
  let filtered := removeBlacklistedDevices bl devices
  if filtered.isEmpty then
    .configError ("No device configurations when reserving " ++ name ++
      " - check that given machine type or name is correct")
  else doReserveLoop lockAttempt filtered name timeout 0

theorem tryLockPass_got (lockAttempt : Nat → String → LockResult) (k : Nat) :
    ∀ (ds : List BDevice) (d : BDevice), tryLockPass lockAttempt k ds = .got d →
      d ∈ ds ∧ lockAttempt k d.dev_id = .acquired := by
  intro ds
  induction ds with
  | nil => intro d h; exact absurd h (by simp [tryLockPass])
  | cons d0 rest ih =>
    intro d h
    simp only [tryLockPass] at h
    cases hl : lockAttempt k d0.dev_id with
    | acquired =>
      simp only [hl] at h
      injection h with h
      subst h
      exact ⟨by simp, hl⟩
    | busy =>
      simp only [hl] at h
      obtain ⟨hm, hacq⟩ := ih d h
      exact ⟨by simp [hm], hacq⟩
    | failure => simp only [hl] at h; exact absurd h (by simp)

theorem tryLockPass_allBusy (lockAttempt : Nat → String → LockResult) (k : Nat)
    (h : ∀ id, lockAttempt k id = .busy) :
    ∀ (ds : List BDevice), tryLockPass lockAttempt k ds = .allBusy := by
  intro ds
  induction ds with
  | nil => rfl
  | cons d0 rest ih => simp only [tryLockPass, h d0.dev_id]; exact ih

theorem doReserveLoop_reserved (lockAttempt : Nat → String → LockResult)
    (devices : List BDevice) (name : String) (timeout : Nat) :
    ∀ (fuel elapsed : Nat), timeout - elapsed ≤ fuel →
      ∀ (d : BDevice) (k : Nat),
        doReserveLoop lockAttempt devices name timeout elapsed = .reserved d k →
        d ∈ devices ∧ lockAttempt k d.dev_id = .acquired ∧
        (10 ∣ elapsed → 10 * k < timeout) := by
  intro fuel
  induction fuel with
  | zero =>
    intro elapsed hle d k h
    rw [doReserveLoop] at h
    rw [if_neg (by omega)] at h
    exact absurd h (by simp)
  | succ fuel ih =>
    intro elapsed hle d k h
    rw [doReserveLoop] at h
    by_cases hlt : elapsed < timeout
    · rw [if_pos hlt] at h
      cases hp : tryLockPass lockAttempt (elapsed / 10) devices with
      | got d0 =>
        simp only [hp] at h
        injection h with h1 h2
        rw [← h1, ← h2]
        obtain ⟨hm, hacq⟩ := tryLockPass_got lockAttempt (elapsed / 10) devices d0 hp
        refine ⟨hm, hacq, fun hdvd => ?_⟩
        have : 10 * (elapsed / 10) = elapsed := Nat.mul_div_cancel' hdvd
        omega
      | exited => simp only [hp] at h; exact absurd h (by simp)
      | allBusy =>
        simp only [hp] at h
        obtain ⟨hm, hacq, hk⟩ := ih (elapsed + 10) (by omega) d k h
        exact ⟨hm, hacq, fun hdvd => hk (by omega)⟩
    · rw [if_neg hlt] at h
      exact absurd h (by simp)

theorem doReserveLoop_allBusy (lockAttempt : Nat → String → LockResult)
    (devices : List BDevice) (name : String) (timeout : Nat)
    (h : ∀ k id, lockAttempt k id = .busy) :
    ∀ (fuel elapsed : Nat), timeout - elapsed ≤ fuel →
      doReserveLoop lockAttempt devices name timeout elapsed =
        .timeoutError ("Could not reserve " ++ name ++ " in " ++ toString timeout ++
          " seconds.") := by
  intro fuel
  induction fuel with
  | zero =>
    intro elapsed hle
    rw [doReserveLoop]
    rw [if_neg (by omega)]
  | succ fuel ih =>
    intro elapsed hle
    rw [doReserveLoop]
    by_cases hlt : elapsed < timeout
    · rw [if_pos hlt]
      have hbusy := tryLockPass_allBusy lockAttempt (elapsed / 10)
        (fun id => h (elapsed / 10) id) devices
      simp only [hbusy]
      exact ih (elapsed + 10) (by omega)
    · rw [if_neg hlt]

/-- C2: a blacklisted device is never returned by reservation, and when
every candidate is blacklisted, `_do_reserve` raises the configuration
error immediately — for every possible lock environment, i.e. without
attempting any lock. -/
theorem claim_C2_blacklist_exclusion
    (bl : List BlacklistEntry) (lockAttempt : Nat → String → LockResult)
    (devices : List BDevice) (name : String) (timeout : Nat) :
    (∀ d k, doReserve bl lockAttempt devices name timeout = .reserved d k →
      isBlacklisted bl d = false) ∧
    ((∀ d ∈ devices, isBlacklisted bl d = true) →
      doReserve bl lockAttempt devices name timeout =
        .configError ("No device configurations when reserving " ++ name ++
          " - check that given machine type or name is correct")) := by
  constructor
  · intro d k h
    unfold doReserve at h
    by_cases he : (removeBlacklistedDevices bl devices).isEmpty
    · rw [if_pos he] at h
      exact absurd h (by simp)
    · rw [if_neg he] at h
      obtain ⟨hm, _, _⟩ := doReserveLoop_reserved lockAttempt
        (removeBlacklistedDevices bl devices) name timeout (timeout - 0) 0
        (by omega) d k h
      have := List.of_mem_filter hm
      simpa using this
  · intro hall
    unfold doReserve
    have hnil : removeBlacklistedDevices bl devices = [] := by
      unfold removeBlacklistedDevices
      rw [List.filter_eq_nil_iff]
      intro d hd
      simp [hall d hd]
    rw [if_pos (by rw [hnil]; rfl)]

/-- C2 witness: a pool whose only config-matching candidate is
blacklisted raises the configuration error at once. -/
theorem claim_C2_witness :
    doReserve [⟨"id1", "dev1", "broken dut"⟩] (fun _ _ => .acquired)
      [⟨"dev1", "id1"⟩] "machineA" 3600 =
      .configError ("No device configurations when reserving machineA" ++
        " - check that given machine type or name is correct") := by
  have h := (claim_C2_blacklist_exclusion [⟨"id1", "dev1", "broken dut"⟩]
    (fun _ _ => .acquired) [⟨"dev1", "id1"⟩] "machineA" 3600).2 (by decide)
  exact h.trans (by decide)

/-- C5: when an unblacklisted candidate exists but every lock attempt
reports busy, `_do_reserve` polls until the timeout elapses and then
raises a timeout error naming the requested machine and the timeout; a
device is only ever returned from a poll round whose lock acquisition
succeeded, within the timeout window. -/
theorem claim_C5_timeout
    (bl : List BlacklistEntry) (lockAttempt : Nat → String → LockResult)
    (devices : List BDevice) (name : String) (timeout : Nat) :
    ((removeBlacklistedDevices bl devices ≠ [] ∧
      (∀ k id, lockAttempt k id = .busy)) →
      doReserve bl lockAttempt devices name timeout =
        .timeoutError ("Could not reserve " ++ name ++ " in " ++ toString timeout ++
          " seconds.")) ∧
    (∀ d k, doReserve bl lockAttempt devices name timeout = .reserved d k →
      lockAttempt k d.dev_id = .acquired ∧ 10 * k < timeout) := by
  constructor
  · intro ⟨hne, hbusy⟩
    unfold doReserve
    rw [if_neg (by simpa [List.isEmpty_iff] using hne)]
    exact doReserveLoop_allBusy lockAttempt (removeBlacklistedDevices bl devices)
      name timeout hbusy (timeout - 0) 0 (by omega)
  · intro d k h
    unfold doReserve at h
    by_cases he : (removeBlacklistedDevices bl devices).isEmpty
    · rw [if_pos he] at h
      exact absurd h (by simp)
    · rw [if_neg he] at h
      obtain ⟨_, hacq, hk⟩ := doReserveLoop_reserved lockAttempt
        (removeBlacklistedDevices bl devices) name timeout (timeout - 0) 0
        (by omega) d k h
      exact ⟨hacq, hk ⟨0, rfl⟩⟩

/-- C5 witness: one candidate, always-busy locks, 25-second timeout:
the reservation times out with the message naming machine and timeout. -/
theorem claim_C5_witness :
    doReserve [] (fun _ _ => .busy) [⟨"dev1", "id1"⟩] "machineA" 25 =
      .timeoutError "Could not reserve machineA in 25 seconds." := by
  have h := (claim_C5_timeout [] (fun _ _ => .busy) [⟨"dev1", "id1"⟩]
    "machineA" 25).1 ⟨by decide, fun _ _ => rfl⟩
  exact h.trans (by decide)

/-! ### Release (`DevicesManager.release`)

The pool state visible to `release`: the device ids of the open lock
file records in `self._lockfiles`, and the device ids whose on-disk lock
artifact `aft_<dev_id>` exists.  `release` closes and removes the first
matching record, then unlinks the artifact if the file exists.
-/

/-- Lock bookkeeping of a `DevicesManager` plus the lock directory. -/
@[ext]
structure PoolState where
  lockfiles : List String
  artifacts : List String
deriving Repr, DecidableEq

/-- Embedding of `DevicesManager.release(reserved_device)` for the device id `devId`. -/
def release (devId : String) (s : PoolState) : PoolState :=
  { lockfiles := s.lockfiles.erase devId,
    artifacts :=
      if s.artifacts.contains devId then s.artifacts.erase devId
      else s.artifacts }

/-- C6: release is idempotent — releasing an already-released handle is a
no-op raising no error — and releasing one handle never changes the lock
record or lock artifact multiplicity of any other handle.  (Each device
is locked at most once, hence the multiplicity bounds.) -/
theorem claim_C6_release_idempotent (devId : String) (s : PoolState)
    (hl : s.lockfiles.count devId ≤ 1) (ha : s.artifacts.count devId ≤ 1) :
    release devId (release devId s) = release devId s ∧
    (∀ d, d ≠ devId →
      ((release devId s).lockfiles.count d = s.lockfiles.count d ∧
       (release devId s).artifacts.count d = s.artifacts.count d)) := by
  have hlock : (s.lockfiles.erase devId).erase devId = s.lockfiles.erase devId := by
    apply List.erase_of_not_mem
    rw [← List.count_eq_zero]
    have := List.count_erase_self devId s.lockfiles
    omega
  have harts : (release devId s).artifacts.contains devId = false := by
    show (if s.artifacts.contains devId then s.artifacts.erase devId
      else s.artifacts).contains devId = false
    by_cases hc : s.artifacts.contains devId = true
    · rw [if_pos hc]
      have hmem : devId ∈ s.artifacts := List.elem_iff.mp hc
      have h1 : 0 < s.artifacts.count devId := List.count_pos_iff.mpr hmem
      have h2 := List.count_erase_self devId s.artifacts
      have h3 : (s.artifacts.erase devId).count devId = 0 := by omega
      have h4 : devId ∉ s.artifacts.erase devId := List.count_eq_zero.mp h3
      cases hcc : (s.artifacts.erase devId).contains devId with
      | false => rfl
      | true => exact absurd (List.elem_iff.mp hcc) h4
    · rw [if_neg hc]
      exact Bool.eq_false_iff.mpr hc
  refine ⟨?_, ?_⟩
  · refine PoolState.ext ?_ ?_
    · show ((release devId s).lockfiles).erase devId = (release devId s).lockfiles
      exact hlock
    · show (if (release devId s).artifacts.contains devId
        then (release devId s).artifacts.erase devId
        else (release devId s).artifacts) = (release devId s).artifacts
      rw [harts]
      simp
  · intro d hd
    constructor
    · show (s.lockfiles.erase devId).count d = s.lockfiles.count d
      exact List.count_erase_of_ne hd s.lockfiles
    · show (if s.artifacts.contains devId then s.artifacts.erase devId
        else s.artifacts).count d = s.artifacts.count d
      by_cases hc : s.artifacts.contains devId = true
      · rw [if_pos hc]
        exact List.count_erase_of_ne hd s.artifacts
      · rw [if_neg hc]

/-- C6 witness: releasing handle `a` twice from a two-device pool is the
same as releasing it once, and handle `b`'s record and artifact survive. -/
theorem claim_C6_witness :
    release "a" (release "a" (PoolState.mk ["a", "b"] ["a", "b"])) =
      release "a" (PoolState.mk ["a", "b"] ["a", "b"]) ∧
    (release "a" (PoolState.mk ["a", "b"] ["a", "b"])).lockfiles.count "b" =
      (PoolState.mk ["a", "b"] ["a", "b"]).lockfiles.count "b" ∧
    (release "a" (PoolState.mk ["a", "b"] ["a", "b"])).artifacts.count "b" =
      (PoolState.mk ["a", "b"] ["a", "b"]).artifacts.count "b" := by
  have h := claim_C6_release_idempotent "a" (PoolState.mk ["a", "b"] ["a", "b"])
    (by decide) (by decide)
  exact ⟨h.1, (h.2 "b" (by decide)).1, (h.2 "b" (by decide)).2⟩

/-! ### Topology discovery attribution (`TopologyBuilder`)

After cutting one channel, `_set_device_network_and_type` scans the
known network configurations and attributes the first one whose ip no
longer answers ping; `_set_device_serial_port` and `_set_device_pem_port`
compare the set of previously-live ports against the still-active ones.
The built `device` dictionary is a `ConfigMap`.
-/

/-- One entry of the builder's network configuration list. -/
structure NetConfig where
  ip : String
  mac : String
  ctype : String
  subnet : String
  usbPath : String
deriving Repr, DecidableEq

/-- Embedding of `TopologyBuilder._set_pc_device_ip_and_type`: store the MAC as the id
and deduce the model from the configured MAC-to-model table. -/
def setPcDeviceIpAndType (pcDevices : List (String × List String))
    (device : ConfigMap) (nc : NetConfig) : ConfigMap :=
  let device := setKey device "id" nc.mac
  match pcDevices.find? (fun pd =>
      pd.2.any (fun pre => strStartsWith (strToLower nc.mac) (strToLower pre))) with
  | some pd => setKey device "model" pd.1
  | none => device

/-- Embedding of `TopologyBuilder._set_edison_device_ip_and_type`. -/
def setEdisonDeviceIpAndType (edisonModel freshId : String)
    (device : ConfigMap) (nc : NetConfig) : ConfigMap :=
  setKey (setKey (setKey (setKey device "network_subnet" nc.subnet)
    "edison_usb_port" nc.usbPath) "id" freshId) "model" edisonModel

/-- Embedding of `TopologyBuilder._set_device_network_and_type`: attribute the first
network configuration whose ip stopped answering ping, remove it from the
list, and return; no check for several ips vanishing at once. -/
def setDeviceNetworkAndType (ping : String → Bool)
    (pcDevices : List (String × List String)) (edisonModel freshId : String)
    (device : ConfigMap) (netConfigs : List NetConfig) :
    ConfigMap × List NetConfig :=
  match netConfigs.find? (fun nc => !ping nc.ip) with
  | none => (device, netConfigs)
  | some nc =>
    let device2 :=
      if nc.ctype == "PC" then setPcDeviceIpAndType pcDevices device nc
      else if nc.ctype == "edison" then
        setEdisonDeviceIpAndType edisonModel freshId device nc
      else device
    (device2, netConfigs.erase nc)

/-- Result of a port-class attribution step: the device dictionary, the
remaining candidate port list, and whether the ambiguity warning fired. -/
structure PortScanResult where
  device : ConfigMap
  ports : List String
  warned : Bool
deriving Repr, DecidableEq

/-- Embedding of `TopologyBuilder._set_device_serial_port`: dead ports = previously
known serial ports minus the still-active ones (as a set); more than one
dead port → warn, attribute nothing; exactly one → attribute it. -/
def setDeviceSerialPort (device : ConfigMap)
    (serialPorts activeSerialPorts : List String) : PortScanResult :=
  let deadPorts := (serialPorts.filter (fun p => !activeSerialPorts.contains p)).dedup
  if deadPorts.length > 1 then ⟨device, serialPorts, true⟩
  else if deadPorts.length = 0 then ⟨device, serialPorts, false⟩
  else
    match deadPorts with
    | p :: _ =>
      ⟨setKey (setKey device "serial_port" ("/dev/" ++ p)) "serial_bauds" "115200",
        serialPorts.erase p, false⟩
    | [] => ⟨device, serialPorts, false⟩

/-- Embedding of `TopologyBuilder._set_device_pem_port` (the serial routine's PEM
counterpart). -/
def setDevicePemPort (device : ConfigMap)
    (pemPorts activePemPorts : List String) : PortScanResult :=
  let deadPorts := (pemPorts.filter (fun p => !activePemPorts.contains p)).dedup
  if deadPorts.length > 1 then ⟨device, pemPorts, true⟩
  else if deadPorts.length = 0 then ⟨device, pemPorts, false⟩
  else
    match deadPorts with
    | p :: _ =>
      ⟨setKey (setKey device "pem_port" ("/dev/" ++ p)) "pem_interface" "serialconnection",
        pemPorts.erase p, false⟩
    | [] => ⟨device, pemPorts, false⟩

/-- C7 counterexample: two network identities both stop answering ping
after one cut (two previously-live signals of the network class
disappear), yet the first one is attributed to the unit (`id` is set to
its MAC) instead of flagging the ambiguity — the claimed behaviour holds
for the serial and PEM classes but not for the network class. -/
theorem claim_C7_counterexample :
    (([⟨"ip1", "AA:11", "PC", "s", "u"⟩, ⟨"ip2", "AA:22", "PC", "s", "u"⟩] :
        List NetConfig).filter (fun nc => !(fun (_ : String) => false) nc.ip)).length = 2 ∧
    getKey (setDeviceNetworkAndType (fun (_ : String) => false)
      [("modelX", ["aa"])] "edison" "u1" []
      [⟨"ip1", "AA:11", "PC", "s", "u"⟩, ⟨"ip2", "AA:22", "PC", "s", "u"⟩]).1 "id" =
      some "AA:11" := by
  exact ⟨by decide, by decide⟩

/-- C7 (amended): for the serial-port and PEM-port signal classes, when
more than one previously-live signal of the class disappears after a
cut, nothing is attributed to the unit (device dictionary and port pool
are unchanged) and the ambiguity warning is logged; the network identity
class performs no such check and attributes the first vanished identity. -/
theorem claim_C7_amended (device : ConfigMap)
    (serialPorts activeSerial pemPorts activePem : List String)
    (hs : ((serialPorts.filter (fun p => !activeSerial.contains p)).dedup).length > 1)
    (hpm : ((pemPorts.filter (fun p => !activePem.contains p)).dedup).length > 1) :
    setDeviceSerialPort device serialPorts activeSerial =
      ⟨device, serialPorts, true⟩ ∧
    setDevicePemPort device pemPorts activePem = ⟨device, pemPorts, true⟩ := by
  constructor
  · simp only [setDeviceSerialPort]
    rw [if_pos hs]
  · simp only [setDevicePemPort]
    rw [if_pos hpm]

/-- C7 witness: ports `ttyS0`, `ttyS1` both die on one cut; the serial
and PEM steps attribute nothing and raise the warning flag. -/
theorem claim_C7_witness :
    setDeviceSerialPort [] ["ttyS0", "ttyS1"] [] =
      ⟨[], ["ttyS0", "ttyS1"], true⟩ ∧
    setDevicePemPort [] ["ttyUSB0", "ttyUSB1"] [] =
      ⟨[], ["ttyUSB0", "ttyUSB1"], true⟩ :=
  claim_C7_amended [] ["ttyS0", "ttyS1"] [] ["ttyUSB0", "ttyUSB1"] []
    (by decide) (by decide)

/-! ### Device handle equality (`Device.__eq__` / `Device.__ne__`) -/

/-- The attributes `Device.__init__` stores on a device handle. -/
structure PyDevice where
  name : String
  model : String
  dev_id : String
  parameters : ConfigMap
  channel : String
deriving Repr, DecidableEq

/-- Embedding of `Device.__eq__`: compare by `dev_id` only. -/
def deviceEq (a b : PyDevice) : Bool := a.dev_id == b.dev_id

/-- Embedding of `Device.__ne__`: compare by `dev_id` only. -/
def deviceNe (a b : PyDevice) : Bool := a.dev_id != b.dev_id

/-- C10: two device handles are equal exactly when their `dev_id`s are
equal, regardless of name, model, parameters or cutter channel, and
`__ne__` is the boolean negation of `__eq__`. -/
theorem claim_C10_device_eq (a b : PyDevice) :
    (deviceEq a b = true ↔ a.dev_id = b.dev_id) ∧
    (∀ n m p c n2 m2 p2 c2,
      deviceEq { a with name := n, model := m, parameters := p, channel := c }
        { b with name := n2, model := m2, parameters := p2, channel := c2 } =
        deviceEq a b) ∧
    deviceNe a b = !deviceEq a b := by
  refine ⟨?_, ?_, ?_⟩
  · simp [deviceEq]
  · intro n m p c n2 m2 p2 c2
    rfl
  · rfl

/-- C10 witness: handles differing in every field but `dev_id` compare
equal. -/
theorem claim_C10_witness :
    deviceEq (PyDevice.mk "n1" "m1" "id1" [] "c1")
      (PyDevice.mk "n2" "m2" "id1" [("k", "v")] "c2") = true :=
  (claim_C10_device_eq (PyDevice.mk "n1" "m1" "id1" [] "c1")
    (PyDevice.mk "n2" "m2" "id1" [("k", "v")] "c2")).1.mpr rfl

end DAFT
